import Mathlib

/- Verification of the text-marker utilities: a shallow embedding of
   find_text_markers.py and filter_csv_by_ids.py, with theorems about the
   marker detector, the marker stripper, the row-statistics aggregator and
   the ID filter. -/

namespace Latency

/-- ASCII whitespace characters recognised by the whitespace class of the
marker patterns and by string trimming (space, tab, newline, carriage
return, vertical tab, form feed). -/
def isPySpace (c : Char) : Bool :=
  c = ' ' || c = '\t' || c = '\n' || c = '\r' || c = '\x0b' || c = '\x0c'

/-- Characters matched by the separator class of the marker patterns:
whitespace or underscore. -/
def isSepChar (c : Char) : Bool :=
  isPySpace c || c = '_'

/-- The em-dash character that may trail a marker. -/
def emDash : Char := '—'

/-- Trimming of leading and trailing whitespace on character lists. -/
def pystrip (l : List Char) : List Char :=
  List.rdropWhile isPySpace (List.dropWhile isPySpace l)

/-- String-level trimming. -/
def pystripS (s : String) : String := ⟨pystrip s.data⟩

/-- Single-character comparison used by the pattern matcher: case-insensitive
mode compares after lowercasing the subject character (the pattern letters
are already lowercase). -/
def charMatch (ci : Bool) (p c : Char) : Bool :=
  if ci then c.toLower = p else c = p

/-- Match a literal pattern word at the head of the subject, returning the
remaining subject on success. -/
def matchLit (ci : Bool) : List Char → List Char → Option (List Char)
  | [], s => some s
  | _ :: _, [] => none
  | p :: ps, c :: cs => if charMatch ci p c then matchLit ci ps cs else none

/-- Match, at the head of the subject, the common tail of the two marker
patterns: one or more whitespace/underscore characters, the literal word
"text", any further whitespace, and an optional run of em-dashes; returns
the number of characters consumed.  Greedy matching needs no backtracking
here, because the letter t is not in the separator class and an em-dash is
not whitespace. -/
def matchTail (ci : Bool) (s : List Char) : Option Nat :=
  let seps := s.takeWhile isSepChar
  if seps.length = 0 then none
  else
    match matchLit ci ['t', 'e', 'x', 't'] (s.dropWhile isSepChar) with
    | none => none
    | some s2 =>
      let ws := s2.takeWhile isPySpace
      let ds := (s2.dropWhile isPySpace).takeWhile (fun c => c = emDash)
      some (seps.length + 4 + ws.length + ds.length)

/-- Match one word alternative followed by the common marker tail at the head
of the subject; returns the matched length. -/
def matchAltAt (ci : Bool) (w s : List Char) : Option Nat :=
  match matchLit ci w s with
  | some s1 =>
    match matchTail ci s1 with
    | some n => some (w.length + n)
    | none => none
  | none => none

/-- Try to match one marker pattern at the head of the subject: first the
short word alternative, then the long one, exactly as the alternation
backtracks. -/
def matchMarkerAt (ci : Bool) (w1 w2 s : List Char) : Option Nat :=
  match matchAltAt ci w1 s with
  | some n => some n
  | none => matchAltAt ci w2 s

/-- Scan left to right for the leftmost match of a marker pattern, as
re.search does; returns the half-open (start, stop) span. -/
def searchMarkerFrom (ci : Bool) (w1 w2 : List Char) : Nat → List Char → Option (Nat × Nat)
  | _, [] => none
  | i, c :: cs =>
    match matchMarkerAt ci w1 w2 (c :: cs) with
    | some n => some (i, i + n)
    | none => searchMarkerFrom ci w1 w2 (i + 1) cs

/-- Leftmost match of the begin-marker pattern. -/
def searchBegin (ci : Bool) (l : List Char) : Option (Nat × Nat) :=
  searchMarkerFrom ci "begin".data "beginning".data 0 l

/-- Leftmost match of the end-marker pattern. -/
def searchEnd (ci : Bool) (l : List Char) : Option (Nat × Nat) :=
  searchMarkerFrom ci "end".data "ending".data 0 l

/-- Marker detector for the begin pattern, as a Boolean; the flag selects
case-sensitive mode. -/
def hasBeginMarker (ci : Bool) (s : String) : Bool :=
  (searchBegin ci s.data).isSome

/-- Marker detector for the end pattern. -/
def hasEndMarker (ci : Bool) (s : String) : Bool :=
  (searchEnd ci s.data).isSome

/-- The marker stripper on character lists: trim, search the begin and end
markers case-insensitively, drop everything up to the end of the begin match,
re-search for the end marker in the remainder and cut before it, then trim
again. -/
def stripMarkersL (t : List Char) : List Char :=
  let text := pystrip t
  if text = [] then text
  else
    let beginMatch := searchBegin true text
    let endMatch := searchEnd true text
    let text1 :=
      match beginMatch with
      | some (_, e) => text.drop e
      | none => text
    let text2 :=
      match endMatch with
      | some _ =>
        match searchEnd true text1 with
        | some (s, _) => text1.take s
        | none => text1
      | none => text1
    pystrip text2

/-- strip_markers on strings: the str branch of the source function (for a
str argument the defensive except branch is unreachable). -/
def strip_markers (t : String) : String := ⟨stripMarkersL t.data⟩

/-- A CSV row as produced by the dict-based reader: an association of field
names to optional values. -/
abbrev Row := List (String × Option String)

/-- Field lookup on a row, as dict.get with default None. -/
def rowGet (r : Row) (k : String) : Option String :=
  match r.find? (fun p => p.1 == k) with
  | some p => p.2
  | none => none

/-- Blank-row test of both scan loops: every value is absent or trims to the
empty string. -/
def isBlankRow (r : Row) : Bool :=
  r.all (fun p =>
    match p.2 with
    | none => true
    | some v => pystripS v == "")

/-- Row match test of the scan loop: either marker found in the raw
output_text field. -/
def rowMatches (ci : Bool) (text : String) : Bool :=
  hasBeginMarker ci text || hasEndMarker ci text

/-- Accumulating state of the row-statistics aggregator in
find_text_markers.py main. -/
structure ScanState where
  total : Nat
  matched : Nat
  matched_ids : List String
  all_ids : List String
  matched_user_ids : Finset String
  all_user_ids : Finset String

/-- The empty aggregator state at the start of a scan. -/
def initState : ScanState := ⟨0, 0, [], [], ∅, ∅⟩

/-- One iteration of the scan loop: skip empty or all-blank rows, count the
row, record the user identifier and the row identifier, and on a marker
match update the matched counter, the matched-id list and the matched-user
set. -/
def rowStep (ci : Bool) (st : ScanState) (r : Row) : ScanState :=
  if r.isEmpty then st
  else if isBlankRow r then st
  else
    let st1 := { st with total := st.total + 1 }
    let user_id := pystripS ((rowGet r "user_id_id").getD "")
    let st2 :=
      if user_id ≠ "" then { st1 with all_user_ids := insert user_id st1.all_user_ids }
      else st1
    let rid := pystripS ((rowGet r "id").getD "")
    let st3 :=
      if rid ≠ "" then { st2 with all_ids := st2.all_ids ++ [rid] } else st2
    let output_text := (rowGet r "output_text").getD ""
    if rowMatches ci output_text then
      let st4 := { st3 with matched := st3.matched + 1 }
      let st5 :=
        if rid ≠ "" then { st4 with matched_ids := st4.matched_ids ++ [rid] } else st4
      if user_id ≠ "" then { st5 with matched_user_ids := insert user_id st5.matched_user_ids }
      else st5
    else st3

/-- The whole scan: fold the row step over the input rows from the empty
state. -/
def scan (ci : Bool) (rows : List Row) : ScanState :=
  rows.foldl (rowStep ci) initState

/-- frequency_percent as computed after the scan, in exact rational
arithmetic. -/
def frequencyPercent (st : ScanState) : ℚ :=
  if st.total ≠ 0 then (st.matched : ℚ) / (st.total : ℚ) * 100 else 0

/-- unique_user_ratio as computed after the scan. -/
def uniqueUserRatio (st : ScanState) : ℚ :=
  if st.all_user_ids ≠ ∅ then (st.matched_user_ids.card : ℚ) / (st.all_user_ids.card : ℚ)
  else 0

/-- load_ids of filter_csv_by_ids.py: collect the trimmed non-blank lines of
the ID file into a set. -/
def load_ids (lines : List String) : Finset String :=
  lines.foldl
    (fun ids line =>
      let id_val := pystripS line
      if id_val ≠ "" then insert id_val ids else ids)
    ∅

/-- A tabular file once the reader has split it: the optional separator-hint
line, the header field names, and the data rows. -/
structure CsvFile where
  sep : Option String
  header : List String
  rows : List Row

/-- Row predicate of the filter loop of filter_csv_by_ids.py: skip empty and
all-blank rows, then keep the row exactly when its trimmed id field is in
the wanted set. -/
def keepRow (wanted : Finset String) (r : Row) : Bool :=
  if r.isEmpty then false
  else if isBlankRow r then false
  else decide (pystripS ((rowGet r "id").getD "") ∈ wanted)

/-- The ID filter: pass the separator-hint line and the header through and
keep exactly the rows accepted by the filter loop, in input order. -/
def filterCsv (wanted : Finset String) (f : CsvFile) : CsvFile :=
  { sep := f.sep, header := f.header, rows := f.rows.filter (keepRow wanted) }

/-- Separator-hint test of find_text_markers.py: the lowercased first line
starts with the four characters of the hint. -/
def isSepLineM (line : String) : Bool :=
  List.isPrefixOf "sep=".data (line.data.map Char.toLower)

/-- Separator-hint test of filter_csv_by_ids.py (the same code shape at its
second occurrence). -/
def isSepLineF (line : String) : Bool :=
  List.isPrefixOf "sep=".data (line.data.map Char.toLower)

/-- Lines handed to header parsing in find_text_markers.py: the first line
is dropped exactly when it is a separator hint. -/
def headerInputM (lines : List String) : List String :=
  match lines with
  | [] => []
  | l :: rest => if isSepLineM l then rest else l :: rest

/-- First-line split of filter_csv_by_ids.py: a separator hint is remembered
for verbatim output and excluded from header parsing. -/
def splitSepF (lines : List String) : Option String × List String :=
  match lines with
  | [] => (none, [])
  | l :: rest => if isSepLineF l then (some l, rest) else (none, l :: rest)

/- Helper lemmas. -/

theorem rdropWhile_isPre (p : Char → Bool) (l : List Char) : List.rdropWhile p l <+: l :=
  List.rdropWhile_prefix p l

theorem take_isPre (n : Nat) (l : List Char) : l.take n <+: l :=
  List.take_prefix n l

/-- Trimming returns a contiguous piece of its argument. -/
theorem pystrip_isInfix (l : List Char) : pystrip l <:+: l :=
  ((rdropWhile_isPre isPySpace (List.dropWhile isPySpace l)).isInfix).trans
    ((List.dropWhile_suffix isPySpace).isInfix)

/-- After dropping a satisfied-head run, dropping again from the right leaves
a list whose head still falsifies the predicate, so a further left drop is
the identity. -/
theorem dropWhile_rdropWhile_dropWhile (p : Char → Bool) (l : List Char) :
    List.dropWhile p (List.rdropWhile p (List.dropWhile p l)) =
      List.rdropWhile p (List.dropWhile p l) := by
  cases hz : List.rdropWhile p (List.dropWhile p l) with
  | nil => simp
  | cons a as =>
    have hpre : List.rdropWhile p (List.dropWhile p l) <+: List.dropWhile p l :=
      rdropWhile_isPre p (List.dropWhile p l)
    have hne : List.rdropWhile p (List.dropWhile p l) ≠ [] := by simp [hz]
    have hhead :
        (List.rdropWhile p (List.dropWhile p l)).head hne =
          (List.dropWhile p l).head (hpre.ne_nil hne) := hpre.head hne
    have hpa : p a = false := by
      have := List.head_dropWhile_not p l (hpre.ne_nil hne)
      rw [← hhead] at this
      simpa [hz] using this
    rw [List.dropWhile_cons_of_neg (by simp [hpa])]

/-- Trimming is idempotent. -/
theorem pystrip_idem (l : List Char) : pystrip (pystrip l) = pystrip l := by
  unfold pystrip
  rw [dropWhile_rdropWhile_dropWhile, List.rdropWhile_idempotent]

/-- The output of the stripper is already trimmed. -/
theorem stripMarkersL_trimmed (t : List Char) : pystrip (stripMarkersL t) = stripMarkersL t := by
  unfold stripMarkersL
  by_cases hE : pystrip t = []
  · simp only [if_pos hE, hE]
    rfl
  · simp only [if_neg hE]
    exact pystrip_idem _

/-- On an already-trimmed input with no marker, the stripper is the
identity. -/
theorem stripMarkersL_no_marker (u : List Char) (hu : pystrip u = u)
    (hb : searchBegin true u = none) (he : searchEnd true u = none) :
    stripMarkersL u = u := by
  by_cases hE : pystrip u = []
  · have hu0 : u = [] := hu.symm.trans hE
    subst hu0
    rfl
  · have hE' : u ≠ [] := fun h0 => hE (hu.trans h0)
    unfold stripMarkersL
    simp only [hu, if_neg hE', hb, he]

/-- Searching the empty subject finds nothing. -/
theorem searchMarkerFrom_nil (ci : Bool) (w1 w2 : List Char) (i : Nat) :
    searchMarkerFrom ci w1 w2 i [] = none := rfl

/-- In an all-blank row every field trims to the empty string. -/
theorem blankRow_field_blank (r : Row) (k : String) (h : isBlankRow r = true) :
    pystripS ((rowGet r k).getD "") = "" := by
  unfold rowGet
  cases hf : r.find? (fun p => p.1 == k) with
  | none => rfl
  | some p =>
    have hmem : p ∈ r := List.mem_of_find?_eq_some hf
    have hall := (List.all_eq_true.mp h) p hmem
    show pystripS (p.2.getD "") = ""
    cases hv : p.2 with
    | none => rfl
    | some v =>
      rw [hv] at hall
      simp only [beq_iff_eq] at hall
      simpa [hv] using hall

/-- load_ids never puts the empty string in the wanted set. -/
theorem load_ids_no_empty (lines : List String) : "" ∉ load_ids lines := by
  unfold load_ids
  suffices h : ∀ acc : Finset String, "" ∉ acc →
      "" ∉ lines.foldl
        (fun ids line =>
          let id_val := pystripS line
          if id_val ≠ "" then insert id_val ids else ids) acc from
    h ∅ (by simp)
  induction lines with
  | nil => intro acc hacc; exact hacc
  | cons l ls ih =>
    intro acc hacc
    simp only [List.foldl_cons]
    apply ih
    by_cases hl : pystripS l ≠ ""
    · simp only [if_pos hl, Finset.mem_insert]
      push_neg
      exact ⟨fun hc => hl hc.symm, hacc⟩
    · simpa [hl] using hacc

/-- One scan step keeps the matched-user set inside the overall-user set. -/
theorem rowStep_subset (ci : Bool) (st : ScanState) (r : Row)
    (h : st.matched_user_ids ⊆ st.all_user_ids) :
    (rowStep ci st r).matched_user_ids ⊆ (rowStep ci st r).all_user_ids := by
  unfold rowStep
  dsimp only
  split_ifs
  all_goals
    first
      | exact h
      | exact h.trans (Finset.subset_insert _ _)
      | exact Finset.insert_subset_insert _ h

/- Claim theorems. -/

/-- Counterexample to claim C1: on an input with two begin-markers one pass
leaves a marker behind, so a second pass strips further. -/
theorem strip_markers_not_idempotent_cex :
    strip_markers "begin text begin text X" = "begin text X" ∧
      strip_markers (strip_markers "begin text begin text X") = "X" ∧
      strip_markers (strip_markers "begin text begin text X") ≠
        strip_markers "begin text begin text X" := by
  decide

/-- Claim C1 (amended): strip_markers is idempotent on every input whose
one-pass output contains no begin-marker and no end-marker; the unrestricted
claim fails because a second begin-marker can survive the single pass. -/
theorem strip_markers_idem_on_markerless (t : String)
    (hb : searchBegin true (strip_markers t).data = none)
    (he : searchEnd true (strip_markers t).data = none) :
    strip_markers (strip_markers t) = strip_markers t := by
  apply String.ext
  show stripMarkersL (strip_markers t).data = (strip_markers t).data
  exact stripMarkersL_no_marker _ (stripMarkersL_trimmed t.data) hb he

/-- Witness for claim C1 at a concrete marker-free input. -/
theorem strip_markers_idem_on_markerless_witness :
    strip_markers (strip_markers " hello world ") = strip_markers " hello world " :=
  strip_markers_idem_on_markerless " hello world " (by decide) (by decide)

/-- Counterexample to claim C2: with case-sensitive mode the pattern words
stay lowercase, so the lowercase text still matches. -/
theorem case_sensitive_scenario_cex :
    hasBeginMarker false "begin text X" = true := by decide

/-- Claim C2 (amended): case-sensitive mode requires the lowercase spelling
of the source pattern, so the lowercase text matches in both modes while the
uppercase text matches only case-insensitively. -/
theorem case_sensitive_detector_behavior :
    hasBeginMarker false "begin text X" = true ∧
      hasBeginMarker true "begin text X" = true ∧
      hasBeginMarker false "BEGIN TEXT X" = false ∧
      hasBeginMarker true "BEGIN TEXT X" = true := by
  decide

/-- Counterexample to claim C3: in a matched row the value appended to the
matched-identifier list comes from the id field while the value inserted in
the matched-identifier set comes from the user_id_id field, so the same
value need not reach both. -/
theorem matched_list_and_set_values_differ_cex :
    (scan true [[("id", some "1"), ("user_id_id", some "u1"),
        ("output_text", some "BEGIN_TEXT hello")]]).matched = 1 ∧
      (scan true [[("id", some "1"), ("user_id_id", some "u1"),
        ("output_text", some "BEGIN_TEXT hello")]]).matched_ids = ["1"] ∧
      (scan true [[("id", some "1"), ("user_id_id", some "u1"),
        ("output_text", some "BEGIN_TEXT hello")]]).matched_user_ids = {"u1"} ∧
      "1" ∉ (scan true [[("id", some "1"), ("user_id_id", some "u1"),
        ("output_text", some "BEGIN_TEXT hello")]]).matched_user_ids := by
  decide

/-- Claim C3 (amended): on every non-blank row whose free-text field matches
a marker, the matched counter is incremented, the trimmed id field (when
non-empty) is appended to the matched-identifier list, and the trimmed
user_id_id field (when non-empty) is inserted in the matched-user set; the
two records come from distinct fields. -/
theorem rowStep_match_updates (ci : Bool) (st : ScanState) (r : Row)
    (hne : r.isEmpty = false) (hnb : isBlankRow r = false)
    (hm : rowMatches ci ((rowGet r "output_text").getD "") = true) :
    (rowStep ci st r).matched = st.matched + 1 ∧
      (rowStep ci st r).matched_ids =
        st.matched_ids ++
          (if pystripS ((rowGet r "id").getD "") ≠ ""
           then [pystripS ((rowGet r "id").getD "")] else []) ∧
      (rowStep ci st r).matched_user_ids =
        (if pystripS ((rowGet r "user_id_id").getD "") ≠ ""
         then insert (pystripS ((rowGet r "user_id_id").getD "")) st.matched_user_ids
         else st.matched_user_ids) := by
  by_cases hr : pystripS ((rowGet r "id").getD "") = "" <;>
    by_cases hu : pystripS ((rowGet r "user_id_id").getD "") = "" <;>
      simp [rowStep, hne, hnb, hm, hr, hu]

/-- Witness for claim C3 on a concrete matched row. -/
theorem rowStep_match_updates_witness :
    (rowStep true initState [("id", some "7"), ("user_id_id", some "u9"),
        ("output_text", some "end text tail")]).matched = initState.matched + 1 :=
  (rowStep_match_updates true initState
    [("id", some "7"), ("user_id_id", some "u9"), ("output_text", some "end text tail")]
    (by decide) (by decide) (by decide)).1

/-- Claim C5: at the end of a scan, frequency_percent is
matched divided by total times 100 (zero when total is zero), and
unique_user_ratio is the matched-user-set size over the overall-user-set
size (zero when the overall set is empty). -/
theorem finalize_formulas (ci : Bool) (rows : List Row) :
    ((scan ci rows).total ≠ 0 →
        frequencyPercent (scan ci rows) =
          ((scan ci rows).matched : ℚ) / ((scan ci rows).total : ℚ) * 100) ∧
      ((scan ci rows).total = 0 → frequencyPercent (scan ci rows) = 0) ∧
      ((scan ci rows).all_user_ids ≠ ∅ →
        uniqueUserRatio (scan ci rows) =
          ((scan ci rows).matched_user_ids.card : ℚ) /
            ((scan ci rows).all_user_ids.card : ℚ)) ∧
      ((scan ci rows).all_user_ids = ∅ → uniqueUserRatio (scan ci rows) = 0) := by
  refine ⟨fun h => ?_, fun h => ?_, fun h => ?_, fun h => ?_⟩ <;>
    simp [frequencyPercent, uniqueUserRatio, h]

/-- Witness for claim C5 on a one-row scan. -/
theorem finalize_formulas_witness :
    frequencyPercent (scan true [[("id", some "1"), ("output_text", some "begin text x")]]) =
      ((scan true [[("id", some "1"), ("output_text", some "begin text x")]]).matched : ℚ) /
        ((scan true [[("id", some "1"), ("output_text", some "begin text x")]]).total : ℚ) *
          100 :=
  (finalize_formulas true [[("id", some "1"), ("output_text", some "begin text x")]]).1
    (by decide)

/-- Claim C6: when the trimmed text has a begin-marker and no end-marker,
strip_markers returns exactly the trimmed suffix after the matched
begin-marker span. -/
theorem strip_begin_only_returns_suffix (t : String) (s e : Nat)
    (hb : searchBegin true (pystrip t.data) = some (s, e))
    (he : searchEnd true (pystrip t.data) = none) :
    (strip_markers t).data = pystrip ((pystrip t.data).drop e) := by
  have hne : pystrip t.data ≠ [] := by
    intro h0
    have h1 : searchBegin true ([] : List Char) = none := rfl
    rw [h0, h1] at hb
    exact Option.noConfusion hb
  show stripMarkersL t.data = _
  unfold stripMarkersL
  simp only [if_neg hne, hb, he]

/-- Witness for claim C6 at a concrete input. -/
theorem strip_begin_only_returns_suffix_witness :
    searchBegin true (pystrip "xx BEGIN_TEXT hello ".data) = some (3, 14) ∧
      (strip_markers "xx BEGIN_TEXT hello ").data =
        pystrip ((pystrip "xx BEGIN_TEXT hello ".data).drop 14) :=
  ⟨by decide, strip_begin_only_returns_suffix "xx BEGIN_TEXT hello " 3 14
    (by decide) (by decide)⟩

/-- Claim C8: the output of strip_markers is always a contiguous piece of
its input; the function only removes characters from the ends. -/
theorem strip_markers_output_contiguous (t : String) :
    (strip_markers t).data <:+: t.data := by
  show stripMarkersL t.data <:+: t.data
  have h0 : pystrip t.data <:+: t.data := pystrip_isInfix _
  unfold stripMarkersL
  by_cases hE : pystrip t.data = []
  · simp only [if_pos hE, hE]
    exact List.nil_infix
  · simp only [if_neg hE]
    cases hbm : searchBegin true (pystrip t.data) with
    | none =>
      cases hem : searchEnd true (pystrip t.data) with
      | none =>
        simp only [hbm, hem]
        exact (pystrip_isInfix _).trans h0
      | some se =>
        obtain ⟨s1, e1⟩ := se
        simp only [hbm, hem]
        exact (pystrip_isInfix _).trans (((take_isPre s1 _).isInfix).trans h0)
    | some se =>
      obtain ⟨s1, e1⟩ := se
      cases hem : searchEnd true (pystrip t.data) with
      | none =>
        simp only [hbm, hem]
        exact (pystrip_isInfix _).trans (((List.drop_suffix e1 _).isInfix).trans h0)
      | some se2 =>
        cases hem2 : searchEnd true ((pystrip t.data).drop e1) with
        | none =>
          simp only [hbm, hem, hem2]
          exact (pystrip_isInfix _).trans (((List.drop_suffix e1 _).isInfix).trans h0)
        | some se3 =>
          obtain ⟨s3, e3⟩ := se3
          simp only [hbm, hem, hem2]
          exact (pystrip_isInfix _).trans (((take_isPre s3 _).isInfix).trans
            (((List.drop_suffix e1 _).isInfix).trans h0))

/-- Claim C9: throughout a scan the matched-user set stays inside the
overall-user set. -/
theorem matchedUsers_subset_allUsers (ci : Bool) (st : ScanState) (rows : List Row)
    (h : st.matched_user_ids ⊆ st.all_user_ids) :
    (rows.foldl (rowStep ci) st).matched_user_ids ⊆
      (rows.foldl (rowStep ci) st).all_user_ids := by
  induction rows generalizing st with
  | nil => exact h
  | cons r rs ih => exact ih (rowStep ci st r) (rowStep_subset ci st r h)

/-- Witness for claim C9 on a concrete one-row scan. -/
theorem matchedUsers_subset_allUsers_witness :
    ([[("user_id_id", some "u1"), ("output_text", some "begin text")]].foldl (rowStep true)
        initState).matched_user_ids ⊆
      ([[("user_id_id", some "u1"), ("output_text", some "begin text")]].foldl (rowStep true)
        initState).all_user_ids :=
  matchedUsers_subset_allUsers true initState
    [[("user_id_id", some "u1"), ("output_text", some "begin text")]] (by decide)

/-- Counterexample to claim C7: when the wanted set contains the empty
string, a row without an id field is kept, although the claim says rows with
no identifier are dropped. -/
theorem filter_empty_wanted_id_cex :
    (filterCsv {""} { sep := none, header := ["x"], rows := [[("x", some "v")]] }).rows =
        [[("x", some "v")]] ∧
      rowGet [("x", some "v")] "id" = none := by
  decide

/-- Claim C7 (amended): for every wanted set that does not contain the empty
string (as any set built by load_ids), the filter passes the separator hint
and the header through unchanged and outputs exactly the rows whose trimmed
id field is in the set, in input order. -/
theorem filterCsv_contract (wanted : Finset String) (f : CsvFile) (hw : "" ∉ wanted) :
    (filterCsv wanted f).sep = f.sep ∧
      (filterCsv wanted f).header = f.header ∧
      (filterCsv wanted f).rows =
        f.rows.filter (fun r => decide (pystripS ((rowGet r "id").getD "") ∈ wanted)) := by
  refine ⟨rfl, rfl, ?_⟩
  show f.rows.filter (keepRow wanted) = _
  apply List.filter_congr
  intro r _
  unfold keepRow
  by_cases h1 : r.isEmpty = true
  · have h0 : rowGet r "id" = none := by
      cases r with
      | nil => rfl
      | cons a as => simp [List.isEmpty] at h1
    rw [if_pos h1, h0]
    exact (decide_eq_false hw).symm
  · by_cases h2 : isBlankRow r = true
    · have hr : pystripS ((rowGet r "id").getD "") = "" := blankRow_field_blank r "id" h2
      rw [if_neg h1, if_pos h2, hr]
      exact (decide_eq_false hw).symm
    · rw [if_neg h1, if_neg h2]

/-- Witness for claim C7 on the wanted-IDs scenario with ids 1, 2, 3, 5. -/
theorem filterCsv_contract_witness :
    (filterCsv ({"2", "5"} : Finset String)
        { sep := some "sep=,", header := ["id", "v"],
          rows := [[("id", some "1"), ("v", some "a")], [("id", some "2"), ("v", some "b")],
                   [("id", some "3"), ("v", some "c")],
                   [("id", some "5"), ("v", some "d")]] }).rows =
      [[("id", some "1"), ("v", some "a")], [("id", some "2"), ("v", some "b")],
       [("id", some "3"), ("v", some "c")], [("id", some "5"), ("v", some "d")]].filter
        (fun r => decide (pystripS ((rowGet r "id").getD "") ∈ ({"2", "5"} : Finset String))) :=
  (filterCsv_contract {"2", "5"}
    { sep := some "sep=,", header := ["id", "v"],
      rows := [[("id", some "1"), ("v", some "a")], [("id", some "2"), ("v", some "b")],
               [("id", some "3"), ("v", some "c")], [("id", some "5"), ("v", some "d")]] }
    (by decide)).2.2

/-- Claim C10: separator-hint detection lowercases the first line before the
comparison, is the same test in both utilities, accepts any casing of the
hint, excludes the hint line from header parsing, and the filter passes the
hint through verbatim. -/
theorem sepline_detection_case_insensitive :
    (∀ s u : String, s.data.map Char.toLower = u.data.map Char.toLower →
        isSepLineM s = isSepLineM u) ∧
      (∀ s : String, isSepLineM s = isSepLineF s) ∧
      (∀ rest : List Char, isSepLineM ⟨'S' :: 'e' :: 'p' :: '=' :: rest⟩ = true ∧
        isSepLineM ⟨'S' :: 'E' :: 'P' :: '=' :: rest⟩ = true ∧
        isSepLineM ⟨'s' :: 'e' :: 'p' :: '=' :: rest⟩ = true) ∧
      (∀ (l : String) (ls : List String), isSepLineM l = true → headerInputM (l :: ls) = ls) ∧
      (∀ (l : String) (ls : List String), isSepLineF l = true →
        splitSepF (l :: ls) = (some l, ls)) ∧
      (∀ (wanted : Finset String) (f : CsvFile), (filterCsv wanted f).sep = f.sep) := by
  refine ⟨?_, ?_, ?_, ?_, ?_, ?_⟩
  · intro s u h
    unfold isSepLineM
    rw [h]
  · intro s
    rfl
  · intro rest
    have hsep : "sep=".data = ['s', 'e', 'p', '='] := rfl
    refine ⟨?_, ?_, ?_⟩ <;>
      · unfold isSepLineM
        rw [hsep]
        simp only [List.map_cons, List.isPrefixOf_cons₂, List.isPrefixOf_nil_left,
          Bool.and_true]
        decide
  · intro l ls h
    simp only [headerInputM]
    rw [if_pos h]
  · intro l ls h
    simp only [splitSepF]
    rw [if_pos h]
  · intro wanted f
    rfl

/-- Witness for claim C10 on concrete upper- and mixed-case hint lines. -/
theorem sepline_detection_witness :
    headerInputM ["SEP=,", "id,v"] = ["id,v"] ∧
      splitSepF ["Sep=;", "h"] = (some "Sep=;", ["h"]) :=
  ⟨sepline_detection_case_insensitive.2.2.2.1 "SEP=," ["id,v"] (by decide),
   sepline_detection_case_insensitive.2.2.2.2.1 "Sep=;" ["h"] (by decide)⟩

/-- Scenario check from the specification: three rows, two matches, two
distinct users, matched identifiers in input order. -/
theorem scan_scenario_check :
    (scan true
      [[("id", some "1"), ("user_id_id", some "u1"), ("output_text", some "BEGIN_TEXT hello")],
       [("id", some "2"), ("user_id_id", some "u1"), ("output_text", some "no marker")],
       [("id", some "3"), ("user_id_id", some "u2"),
        ("output_text", some "hi END TEXT bye")]]).total = 3 ∧
      (scan true
        [[("id", some "1"), ("user_id_id", some "u1"), ("output_text", some "BEGIN_TEXT hello")],
         [("id", some "2"), ("user_id_id", some "u1"), ("output_text", some "no marker")],
         [("id", some "3"), ("user_id_id", some "u2"),
          ("output_text", some "hi END TEXT bye")]]).matched = 2 ∧
      (scan true
        [[("id", some "1"), ("user_id_id", some "u1"), ("output_text", some "BEGIN_TEXT hello")],
         [("id", some "2"), ("user_id_id", some "u1"), ("output_text", some "no marker")],
         [("id", some "3"), ("user_id_id", some "u2"),
          ("output_text", some "hi END TEXT bye")]]).matched_ids = ["1", "3"] := by
  decide

/-- Behaviour check of the stripper on a marker pair with spelling variants
and em-dashes. -/
theorem strip_markers_variants_check :
    strip_markers "Beginning_text — keep this ENDING TEXT—drop" = "keep this" ∧
      strip_markers "hi END TEXT bye" = "hi" ∧ strip_markers "  hello  " = "hello" := by
  decide

end Latency
